import Mathlib

/-!
Verification of the MyGarden plant-health classifier and achievement level
computation (`functions/plant_health.py`, `functions/achievement_activities.py`,
constants from `functions/constants.py`).

Timestamps are epoch milliseconds (`ℤ` for stored fields, `ℚ` for the wall
clock reading `now`); all arithmetic is modelled exactly over `ℚ`.
-/

/-- The `PlantHealthStatus` enum from `functions/models.py`. -/
inductive PlantHealthStatus where
  | SEVERELY_OVERWATERED
  | OVERWATERED
  | HEALTHY
  | SLIGHTLY_DRY
  | NEEDS_WATER
  | SEVERELY_DRY
  | UNKNOWN
deriving DecidableEq, Repr

open PlantHealthStatus

/-- Constant `SEVERELY_OVERWATERED_MAX_THRESHOLD = 30.0` from `functions/constants.py`. -/
def SEVERELY_OVERWATERED_MAX_THRESHOLD : ℚ := 30

/-- Constant `OVERWATERED_MAX_THRESHOLD = 70.0` from `functions/constants.py`. -/
def OVERWATERED_MAX_THRESHOLD : ℚ := 70

/-- Constant `HEALTHY_MAX_THRESHOLD = 70.0` from `functions/constants.py`. -/
def HEALTHY_MAX_THRESHOLD : ℚ := 70

/-- Constant `SLIGHTLY_DRY_MAX_THRESHOLD = 100.0` from `functions/constants.py`. -/
def SLIGHTLY_DRY_MAX_THRESHOLD : ℚ := 100

/-- Constant `NEEDS_WATER_MAX_THRESHOLD = 130.0` from `functions/constants.py`. -/
def NEEDS_WATER_MAX_THRESHOLD : ℚ := 130

/-- Constant `OVERWATER_STATE_RECOVERY_END_THRESHOLD = 30.0` from `functions/constants.py`. -/
def OVERWATER_STATE_RECOVERY_END_THRESHOLD : ℚ := 30

/-- Constant `OVERWATERING_SEVERITY_LEVEL_THRESHOLD = 0.5` from `functions/constants.py`. -/
def OVERWATERING_SEVERITY_LEVEL_THRESHOLD : ℚ := 1/2

/-- Helper `_dt` from `plant_health.py`: converts an epoch-millisecond value to the
epoch-second timeline (`datetime.fromtimestamp(x / 1000.0, timezone.utc)`).
The `None` propagation of `_dt` is handled by `Option` at the call sites. -/
def dtSeconds (x : ℚ) : ℚ := x / 1000

/-- Helper `_days` from `plant_health.py`: `(b - a).total_seconds() / (60*60*24)`. -/
def daysBetween (a b : ℚ) : ℚ := (b - a) / 86400

/-- Helper `_relative_percentage` from `plant_health.py`: normalize `z` from the
interval `[x, y]` into `[0, 1]`, returning `0` when the bounds coincide. -/
def relative_percentage (x y z : ℚ) : ℚ :=
  if y = x then 0
  else (max x (min y z) - x) / (y - x)

/-- Quantity `dryness_pct` as computed in `compute_status`:
`days_since / watering_frequency_days * 100` with
`days_since = _days(last, now)`. -/
def dryness_pct (last : ℤ) (watering_frequency_days : ℚ) (now : ℚ) : ℚ :=
  daysBetween (dtSeconds (last : ℚ)) (dtSeconds now) / watering_frequency_days * 100

/-- Quantity `interval_pct` as computed in `compute_status`:
`days_between / watering_frequency_days * 100` with
`days_between = _days(prev, last)`. -/
def interval_pct (last prev : ℤ) (watering_frequency_days : ℚ) : ℚ :=
  daysBetween (dtSeconds (prev : ℚ)) (dtSeconds (last : ℚ)) / watering_frequency_days * 100

/-- Quantity `starting_overwater_severity` as computed in `compute_status`
(lines 67-84 of `plant_health.py`): `0.0` without a previous watering,
otherwise the threshold map of `interval_pct`. -/
def starting_overwater_severity (last : ℤ) (watering_frequency_days : ℚ)
    (previous_last_watered : Option ℤ) : ℚ :=
  match previous_last_watered with
  | none => 0
  | some prev =>
    let ipct := interval_pct last prev watering_frequency_days
    if ipct < SEVERELY_OVERWATERED_MAX_THRESHOLD then 1
    else if ipct < OVERWATERED_MAX_THRESHOLD then
      1 - relative_percentage SEVERELY_OVERWATERED_MAX_THRESHOLD
            OVERWATERED_MAX_THRESHOLD ipct
    else 0

/-- Quantity `overwater_decay` as computed in `compute_status`:
`max(0.0, min(1.0, 1.0 - dryness_pct / OVERWATER_STATE_RECOVERY_END_THRESHOLD))`. -/
def overwater_decay (dryness : ℚ) : ℚ :=
  max 0 (min 1 (1 - dryness / OVERWATER_STATE_RECOVERY_END_THRESHOLD))

/-- Quantity `effective_overwater_severity` as computed in `compute_status`:
`starting_overwater_severity * overwater_decay`. -/
def effective_overwater_severity (last : ℤ) (watering_frequency_days : ℚ)
    (previous_last_watered : Option ℤ) (now : ℚ) : ℚ :=
  starting_overwater_severity last watering_frequency_days previous_last_watered *
    overwater_decay (dryness_pct last watering_frequency_days now)

/-- The dryness ladder of `compute_status` (lines 97-103 of `plant_health.py`). -/
def dryness_ladder (dryness : ℚ) : PlantHealthStatus :=
  if dryness ≤ HEALTHY_MAX_THRESHOLD then HEALTHY
  else if dryness ≤ SLIGHTLY_DRY_MAX_THRESHOLD then SLIGHTLY_DRY
  else if dryness ≤ NEEDS_WATER_MAX_THRESHOLD then NEEDS_WATER
  else SEVERELY_DRY

/-- Function `compute_status` from `plant_health.py`. In the Python source,
`now = datetime.now(timezone.utc)` is read from the wall clock inside the
function body; here the clock reading is passed explicitly as `now`
(epoch milliseconds). `last_watered` is `Option` because the body checks
`last is None` after `_dt` propagates `None`. -/
def compute_status (last_watered : Option ℤ) (watering_frequency_days : ℚ)
    (previous_last_watered : Option ℤ) (now : ℚ) : PlantHealthStatus :=
  match last_watered with
  | none => UNKNOWN
  | some last =>
    if watering_frequency_days ≤ 0 then UNKNOWN
    else
      let eff := effective_overwater_severity last watering_frequency_days
                   previous_last_watered now
      if 0 < eff then
        if OVERWATERING_SEVERITY_LEVEL_THRESHOLD < eff then SEVERELY_OVERWATERED
        else OVERWATERED
      else dryness_ladder (dryness_pct last watering_frequency_days now)

/-- Constant `ACHIEVEMENTS_LEVEL_NUMBER = 10` from `functions/achievement_activities.py`. -/
def ACHIEVEMENTS_LEVEL_NUMBER : ℕ := 10

/-- The loop of `compute_level`, with `i` the running `enumerate` index:
returns `1 + i` at the first threshold with `value < t`, and
`ACHIEVEMENTS_LEVEL_NUMBER` when the loop exhausts. -/
def computeLevelFrom (value : ℤ) : List ℤ → ℕ → ℕ
  | [], _ => ACHIEVEMENTS_LEVEL_NUMBER
  | t :: ts, i => if value < t then 1 + i else computeLevelFrom value ts (i + 1)

/-- Function `compute_level` from `functions/achievement_activities.py`. -/
def compute_level (value : ℤ) (thresholds : List ℤ) : ℕ :=
  computeLevelFrom value thresholds 0

/-- Branch structure of `compute_status` once the entry validation passes. -/
lemma compute_status_some (last : ℤ) (f : ℚ) (p : Option ℤ) (t : ℚ) (hf : 0 < f) :
    compute_status (some last) f p t =
      if 0 < effective_overwater_severity last f p t then
        if OVERWATERING_SEVERITY_LEVEL_THRESHOLD <
            effective_overwater_severity last f p t then SEVERELY_OVERWATERED
        else OVERWATERED
      else dryness_ladder (dryness_pct last f t) := by
  simp only [compute_status]
  rw [if_neg (not_le.mpr hf)]

/-- C1: with positive watering frequency and a previous watering present, the
starting overwatering severity is 1 for `interval_pct < 30`, the linear
interpolation `1 - (interval_pct - 30) / (70 - 30)` for `30 ≤ interval_pct < 70`,
and 0 for `interval_pct ≥ 70`; without a previous watering it is 0; and
`interval_pct` is the gap `last_watered - previous_last_watered` in days divided
by the frequency, times 100. -/
theorem C1_starting_severity (last prev : ℤ) (f : ℚ) (hf : 0 < f) :
    (starting_overwater_severity last f (some prev) =
      if interval_pct last prev f < 30 then 1
      else if interval_pct last prev f < 70 then
        1 - (interval_pct last prev f - 30) / (70 - 30)
      else 0)
    ∧ starting_overwater_severity last f none = 0
    ∧ interval_pct last prev f = ((last : ℚ) - (prev : ℚ)) / 1000 / 86400 / f * 100 := by
  refine ⟨?_, rfl, ?_⟩
  · unfold starting_overwater_severity
    simp only [SEVERELY_OVERWATERED_MAX_THRESHOLD, OVERWATERED_MAX_THRESHOLD]
    set ip := interval_pct last prev f with hip
    by_cases h1 : ip < 30
    · simp [h1]
    · by_cases h2 : ip < 70
      · rw [if_neg h1, if_pos h2, if_neg h1, if_pos h2]
        unfold relative_percentage
        rw [if_neg (by norm_num : (70 : ℚ) ≠ 30),
          min_eq_right h2.le, max_eq_right (not_lt.mp h1)]
      · simp [h1, h2]
  · unfold interval_pct daysBetween dtSeconds
    ring

/-- C1 witness: instantiation at `last = 86400000` ms, `prev = 0`, frequency 10. -/
theorem C1_starting_severity_witness :
    (starting_overwater_severity 86400000 10 (some 0) =
      if interval_pct 86400000 0 10 < 30 then 1
      else if interval_pct 86400000 0 10 < 70 then
        1 - (interval_pct 86400000 0 10 - 30) / (70 - 30)
      else 0)
    ∧ starting_overwater_severity 86400000 10 none = 0
    ∧ interval_pct 86400000 0 10 =
        (((86400000 : ℤ) : ℚ) - ((0 : ℤ) : ℚ)) / 1000 / 86400 / 10 * 100 :=
  C1_starting_severity 86400000 0 10 (by norm_num)

/-- C2: the effective overwatering severity is the starting severity times the
clamp `max 0 (min 1 (1 - dryness_pct / 30))`; whenever `dryness_pct ≥ 30` the
effective severity is 0 and the status is taken from the dryness ladder. -/
theorem C2_effective_severity_decay (last : ℤ) (f : ℚ) (p : Option ℤ) (t : ℚ)
    (hf : 0 < f) :
    effective_overwater_severity last f p t =
      starting_overwater_severity last f p *
        max 0 (min 1 (1 - dryness_pct last f t / 30)) ∧
    (30 ≤ dryness_pct last f t →
      effective_overwater_severity last f p t = 0 ∧
      compute_status (some last) f p t = dryness_ladder (dryness_pct last f t)) := by
  constructor
  · rfl
  · intro h30
    have h1 : 1 - dryness_pct last f t / 30 ≤ 0 := by
      have : (1 : ℚ) ≤ dryness_pct last f t / 30 :=
        (one_le_div (by norm_num : (0 : ℚ) < 30)).mpr h30
      linarith
    have hd : overwater_decay (dryness_pct last f t) = 0 := by
      unfold overwater_decay OVERWATER_STATE_RECOVERY_END_THRESHOLD
      rw [min_eq_right (h1.trans zero_le_one), max_eq_left h1]
    have he : effective_overwater_severity last f p t = 0 := by
      unfold effective_overwater_severity
      rw [hd, mul_zero]
    refine ⟨he, ?_⟩
    rw [compute_status_some last f p t hf, he, if_neg (lt_irrefl 0)]

/-- C2 witness: instantiation at `last = 0`, frequency 10, `prev = 0` absent,
`now = 20` days in ms (`dryness_pct = 200 ≥ 30`). -/
theorem C2_effective_severity_decay_witness :
    (effective_overwater_severity 0 10 none (20 * 86400000) =
      starting_overwater_severity 0 10 none *
        max 0 (min 1 (1 - dryness_pct 0 10 (20 * 86400000) / 30)) ∧
    (30 ≤ dryness_pct 0 10 (20 * 86400000) →
      effective_overwater_severity 0 10 none (20 * 86400000) = 0 ∧
      compute_status (some 0) 10 none (20 * 86400000) =
        dryness_ladder (dryness_pct 0 10 (20 * 86400000)))) ∧
    30 ≤ dryness_pct 0 10 (20 * 86400000) :=
  ⟨C2_effective_severity_decay 0 10 none (20 * 86400000) (by norm_num),
   by norm_num [dryness_pct, daysBetween, dtSeconds]⟩

/-- C3: with positive frequency, effective severity strictly above the 0.5
threshold yields `SEVERELY_OVERWATERED`; effective severity strictly positive
but at most 0.5 (including exactly 0.5) yields `OVERWATERED`. -/
theorem C3_severity_branching (last : ℤ) (f : ℚ) (p : Option ℤ) (t : ℚ)
    (hf : 0 < f) :
    OVERWATERING_SEVERITY_LEVEL_THRESHOLD = 1/2 ∧
    (1/2 < effective_overwater_severity last f p t →
      compute_status (some last) f p t = SEVERELY_OVERWATERED) ∧
    (0 < effective_overwater_severity last f p t →
      effective_overwater_severity last f p t ≤ 1/2 →
      compute_status (some last) f p t = OVERWATERED) := by
  refine ⟨rfl, ?_, ?_⟩
  · intro h
    rw [compute_status_some last f p t hf,
      if_pos (lt_trans (by norm_num) h),
      if_pos (show OVERWATERING_SEVERITY_LEVEL_THRESHOLD <
        effective_overwater_severity last f p t from h)]
  · intro h0 hle
    rw [compute_status_some last f p t hf, if_pos h0,
      if_neg (not_lt.mpr (show effective_overwater_severity last f p t ≤
        OVERWATERING_SEVERITY_LEVEL_THRESHOLD from hle))]

/-- C3 witness: `last = 86400000` ms, frequency 10, `prev = 0`, `now = last`
(dryness 0, interval 10% → severity 1 → severely overwatered branch). -/
theorem C3_severity_branching_witness :
    (OVERWATERING_SEVERITY_LEVEL_THRESHOLD = 1/2 ∧
    (1/2 < effective_overwater_severity 86400000 10 (some 0) 86400000 →
      compute_status (some 86400000) 10 (some 0) 86400000 = SEVERELY_OVERWATERED) ∧
    (0 < effective_overwater_severity 86400000 10 (some 0) 86400000 →
      effective_overwater_severity 86400000 10 (some 0) 86400000 ≤ 1/2 →
      compute_status (some 86400000) 10 (some 0) 86400000 = OVERWATERED)) ∧
    compute_status (some 86400000) 10 (some 0) 86400000 = SEVERELY_OVERWATERED :=
  ⟨C3_severity_branching 86400000 10 (some 0) 86400000 (by norm_num),
   (C3_severity_branching 86400000 10 (some 0) 86400000 (by norm_num)).2.1
     (by norm_num [effective_overwater_severity, starting_overwater_severity,
       interval_pct, dryness_pct, daysBetween, dtSeconds, overwater_decay,
       SEVERELY_OVERWATERED_MAX_THRESHOLD, OVERWATER_STATE_RECOVERY_END_THRESHOLD])⟩

/-- C4: with positive frequency and zero effective overwatering severity, the
dryness ladder is inclusive at each upper bound: `dryness_pct ≤ 70` is
`HEALTHY`, `70 < dryness_pct ≤ 100` is `SLIGHTLY_DRY`, `100 < dryness_pct ≤ 130`
is `NEEDS_WATER`, and `dryness_pct > 130` is `SEVERELY_DRY`. -/
theorem C4_dryness_ladder (last : ℤ) (f : ℚ) (p : Option ℤ) (t : ℚ)
    (hf : 0 < f) (h0 : effective_overwater_severity last f p t = 0) :
    (dryness_pct last f t ≤ 70 → compute_status (some last) f p t = HEALTHY) ∧
    (70 < dryness_pct last f t → dryness_pct last f t ≤ 100 →
      compute_status (some last) f p t = SLIGHTLY_DRY) ∧
    (100 < dryness_pct last f t → dryness_pct last f t ≤ 130 →
      compute_status (some last) f p t = NEEDS_WATER) ∧
    (130 < dryness_pct last f t → compute_status (some last) f p t = SEVERELY_DRY) := by
  have hl : compute_status (some last) f p t = dryness_ladder (dryness_pct last f t) := by
    rw [compute_status_some last f p t hf, h0, if_neg (lt_irrefl 0)]
  rw [hl]
  unfold dryness_ladder
  simp only [HEALTHY_MAX_THRESHOLD, SLIGHTLY_DRY_MAX_THRESHOLD, NEEDS_WATER_MAX_THRESHOLD]
  refine ⟨fun h ↦ by rw [if_pos h], fun h h' ↦ ?_, fun h h' ↦ ?_, fun h ↦ ?_⟩
  · rw [if_neg (not_le.mpr h), if_pos h']
  · rw [if_neg (not_le.mpr (by linarith)), if_neg (not_le.mpr h), if_pos h']
  · rw [if_neg (not_le.mpr (by linarith)), if_neg (not_le.mpr (by linarith)),
      if_neg (not_le.mpr h)]

/-- C4 witness: `last = 0`, frequency 10, no previous watering, `now` exactly
7 days in ms, so `dryness_pct = 70` exactly and the status is `HEALTHY`. -/
theorem C4_dryness_ladder_witness :
    ((dryness_pct 0 10 (7 * 86400000) ≤ 70 →
      compute_status (some 0) 10 none (7 * 86400000) = HEALTHY) ∧
    (70 < dryness_pct 0 10 (7 * 86400000) → dryness_pct 0 10 (7 * 86400000) ≤ 100 →
      compute_status (some 0) 10 none (7 * 86400000) = SLIGHTLY_DRY) ∧
    (100 < dryness_pct 0 10 (7 * 86400000) → dryness_pct 0 10 (7 * 86400000) ≤ 130 →
      compute_status (some 0) 10 none (7 * 86400000) = NEEDS_WATER) ∧
    (130 < dryness_pct 0 10 (7 * 86400000) →
      compute_status (some 0) 10 none (7 * 86400000) = SEVERELY_DRY)) ∧
    compute_status (some 0) 10 none (7 * 86400000) = HEALTHY :=
  have h := C4_dryness_ladder 0 10 none (7 * 86400000) (by norm_num)
    (by norm_num [effective_overwater_severity, starting_overwater_severity])
  ⟨h, h.1 (by norm_num [dryness_pct, daysBetween, dtSeconds])⟩

/-- C5: if `watering_frequency_days ≤ 0` or `last_watered` is absent, the
result is `UNKNOWN`; with a positive frequency and `last_watered` present, the
result is never `UNKNOWN`. -/
theorem C5_unknown_validation (l : Option ℤ) (f : ℚ) (p : Option ℤ) (t : ℚ) :
    ((f ≤ 0 ∨ l = none) → compute_status l f p t = UNKNOWN) ∧
    (0 < f → ∀ last : ℤ, l = some last → compute_status l f p t ≠ UNKNOWN) := by
  constructor
  · rintro (hle | hnone)
    · cases l with
      | none => rfl
      | some last =>
        simp only [compute_status]
        rw [if_pos hle]
    · rw [hnone]
      rfl
  · rintro hf last rfl
    rw [compute_status_some last f p t hf]
    split_ifs
    · simp
    · simp
    · unfold dryness_ladder
      split_ifs <;> simp

/-- C5 witness: frequency 0 gives `UNKNOWN`; missing `last_watered` gives
`UNKNOWN`; frequency 1 with `last_watered = 0` present does not. -/
theorem C5_unknown_validation_witness :
    compute_status (some 0) 0 none 5 = UNKNOWN ∧
    compute_status none 1 none 5 = UNKNOWN ∧
    compute_status (some 0) 1 none 5 ≠ UNKNOWN :=
  ⟨(C5_unknown_validation (some 0) 0 none 5).1 (Or.inl le_rfl),
   (C5_unknown_validation none 1 none 5).1 (Or.inr rfl),
   (C5_unknown_validation (some 0) 1 none 5).2 (by norm_num) 0 rfl⟩

/-- C10: with positive frequency, `last_watered` strictly in the future
(`now < last_watered`) and no previous watering, the result is `HEALTHY`:
`dryness_pct` is negative, the decay factor is clamped to 1, and the negative
dryness falls into the first ladder bucket. -/
theorem C10_future_last_watered (last : ℤ) (f t : ℚ) (hf : 0 < f)
    (hfut : t < (last : ℚ)) :
    compute_status (some last) f none t = HEALTHY ∧
    overwater_decay (dryness_pct last f t) = 1 ∧
    dryness_pct last f t < 0 := by
  have hneg : dryness_pct last f t < 0 := by
    have h1 : dryness_pct last f t = (t - (last : ℚ)) / 86400000 / f * 100 := by
      unfold dryness_pct daysBetween dtSeconds
      ring
    rw [h1]
    have h2 : (t - (last : ℚ)) / 86400000 < 0 :=
      div_neg_of_neg_of_pos (by linarith) (by norm_num)
    have h3 : (t - (last : ℚ)) / 86400000 / f < 0 := div_neg_of_neg_of_pos h2 hf
    exact mul_neg_of_neg_of_pos h3 (by norm_num)
  have hdecay : overwater_decay (dryness_pct last f t) = 1 := by
    unfold overwater_decay OVERWATER_STATE_RECOVERY_END_THRESHOLD
    have h4 : dryness_pct last f t / 30 < 0 := div_neg_of_neg_of_pos hneg (by norm_num)
    rw [min_eq_left (by linarith), max_eq_right zero_le_one]
  refine ⟨?_, hdecay, hneg⟩
  have he : effective_overwater_severity last f none t = 0 := by
    unfold effective_overwater_severity starting_overwater_severity
    rw [zero_mul]
  rw [compute_status_some last f none t hf, he, if_neg (lt_irrefl 0)]
  unfold dryness_ladder
  rw [if_pos (show dryness_pct last f t ≤ HEALTHY_MAX_THRESHOLD by
    unfold HEALTHY_MAX_THRESHOLD
    linarith)]

/-- C10 witness: `last = 86400000` ms (one day after epoch), frequency 10,
`now = 0` (one day before the recorded watering). -/
theorem C10_future_last_watered_witness :
    (0 : ℚ) < 10 ∧ (0 : ℚ) < ((86400000 : ℤ) : ℚ) ∧
    (compute_status (some 86400000) 10 none 0 = HEALTHY ∧
     overwater_decay (dryness_pct 86400000 10 0) = 1 ∧
     dryness_pct 86400000 10 0 < 0) :=
  ⟨by norm_num, by norm_num,
   C10_future_last_watered 86400000 10 0 (by norm_num) (by norm_num)⟩

/-- Position of a status along the overwatered → healthy → dry axis
(`UNKNOWN` is off the axis and never produced with valid inputs). -/
def statusRank : PlantHealthStatus → ℕ
  | SEVERELY_OVERWATERED => 0
  | OVERWATERED => 1
  | HEALTHY => 2
  | SLIGHTLY_DRY => 3
  | NEEDS_WATER => 4
  | SEVERELY_DRY => 5
  | UNKNOWN => 6

lemma starting_overwater_severity_nonneg (last : ℤ) (f : ℚ) (p : Option ℤ) :
    0 ≤ starting_overwater_severity last f p := by
  unfold starting_overwater_severity
  cases p with
  | none => exact le_refl 0
  | some prev =>
    simp only [SEVERELY_OVERWATERED_MAX_THRESHOLD, OVERWATERED_MAX_THRESHOLD]
    set ip := interval_pct last prev f with hip
    split_ifs with h1 h2
    · exact zero_le_one
    · unfold relative_percentage
      rw [if_neg (by norm_num : (70 : ℚ) ≠ 30),
        min_eq_right h2.le, max_eq_right (not_lt.mp h1)]
      have : (ip - 30) / (70 - 30) ≤ 1 := by
        rw [div_le_one (by norm_num : (0 : ℚ) < 70 - 30)]
        linarith
      linarith
    · exact le_refl 0

lemma overwater_decay_nonneg (d : ℚ) : 0 ≤ overwater_decay d := le_max_left 0 _

lemma overwater_decay_antitone (d1 d2 : ℚ) (h : d1 ≤ d2) :
    overwater_decay d2 ≤ overwater_decay d1 := by
  unfold overwater_decay OVERWATER_STATE_RECOVERY_END_THRESHOLD
  have hdiv : d1 / 30 ≤ d2 / 30 := by
    apply div_le_div_of_nonneg_right h
    norm_num
  exact max_le_max (le_refl 0) (min_le_min (le_refl 1) (by linarith))

lemma dryness_pct_mono (last : ℤ) (f : ℚ) (t1 t2 : ℚ) (hf : 0 < f) (h : t1 ≤ t2) :
    dryness_pct last f t1 ≤ dryness_pct last f t2 := by
  have e1 : dryness_pct last f t1 = (t1 - (last : ℚ)) / 86400000 / f * 100 := by
    unfold dryness_pct daysBetween dtSeconds; ring
  have e2 : dryness_pct last f t2 = (t2 - (last : ℚ)) / 86400000 / f * 100 := by
    unfold dryness_pct daysBetween dtSeconds; ring
  rw [e1, e2]
  have h1 : (t1 - (last : ℚ)) / 86400000 ≤ (t2 - (last : ℚ)) / 86400000 := by
    apply div_le_div_of_nonneg_right (by linarith)
    norm_num
  have h2 : (t1 - (last : ℚ)) / 86400000 / f ≤ (t2 - (last : ℚ)) / 86400000 / f := by
    apply div_le_div_of_nonneg_right h1 hf.le
  linarith

lemma effective_overwater_severity_nonneg (last : ℤ) (f : ℚ) (p : Option ℤ) (t : ℚ) :
    0 ≤ effective_overwater_severity last f p t :=
  mul_nonneg (starting_overwater_severity_nonneg last f p) (overwater_decay_nonneg _)

lemma effective_overwater_severity_antitone (last : ℤ) (f : ℚ) (p : Option ℤ)
    (t1 t2 : ℚ) (hf : 0 < f) (h : t1 ≤ t2) :
    effective_overwater_severity last f p t2 ≤ effective_overwater_severity last f p t1 :=
  mul_le_mul_of_nonneg_left
    (overwater_decay_antitone _ _ (dryness_pct_mono last f t1 t2 hf h))
    (starting_overwater_severity_nonneg last f p)

lemma two_le_statusRank_dryness_ladder (d : ℚ) : 2 ≤ statusRank (dryness_ladder d) := by
  unfold dryness_ladder
  split_ifs <;> simp [statusRank]

lemma statusRank_dryness_ladder_mono (d1 d2 : ℚ) (h : d1 ≤ d2) :
    statusRank (dryness_ladder d1) ≤ statusRank (dryness_ladder d2) := by
  simp only [dryness_ladder, HEALTHY_MAX_THRESHOLD, SLIGHTLY_DRY_MAX_THRESHOLD,
    NEEDS_WATER_MAX_THRESHOLD]
  split_ifs <;> first
    | linarith
    | simp [statusRank]

/-- C6: for fixed `last_watered`, positive frequency and fixed
`previous_last_watered`, as `now` increases `dryness_pct` is monotone
non-decreasing and the status rank along the
overwatered → healthy → dry axis never decreases (the status never regresses
toward an overwatered state). -/
theorem C6_status_monotone (last : ℤ) (f : ℚ) (p : Option ℤ) (t1 t2 : ℚ)
    (hf : 0 < f) (h : t1 ≤ t2) :
    dryness_pct last f t1 ≤ dryness_pct last f t2 ∧
    statusRank (compute_status (some last) f p t1) ≤
      statusRank (compute_status (some last) f p t2) := by
  have hd := dryness_pct_mono last f t1 t2 hf h
  refine ⟨hd, ?_⟩
  rw [compute_status_some last f p t1 hf, compute_status_some last f p t2 hf]
  have h21 : effective_overwater_severity last f p t2 ≤
      effective_overwater_severity last f p t1 :=
    effective_overwater_severity_antitone last f p t1 t2 hf h
  by_cases he1 : 0 < effective_overwater_severity last f p t1
  · by_cases hs1 : OVERWATERING_SEVERITY_LEVEL_THRESHOLD <
        effective_overwater_severity last f p t1
    · rw [if_pos he1, if_pos hs1]
      exact Nat.zero_le _
    · rw [if_pos he1, if_neg hs1]
      by_cases he2 : 0 < effective_overwater_severity last f p t2
      · rw [if_pos he2, if_neg (fun hc ↦ hs1 (lt_of_lt_of_le hc h21))]
      · rw [if_neg he2]
        exact le_trans (by norm_num [statusRank]) (two_le_statusRank_dryness_ladder _)
  · have he2 : ¬ 0 < effective_overwater_severity last f p t2 :=
      fun hc ↦ he1 (lt_of_lt_of_le hc h21)
    rw [if_neg he1, if_neg he2]
    exact statusRank_dryness_ladder_mono _ _ hd

/-- C6 witness: `last = 0`, frequency 10, `prev` absent, `now` from 0 to one
day in ms. -/
theorem C6_status_monotone_witness :
    dryness_pct 0 10 0 ≤ dryness_pct 0 10 86400000 ∧
    statusRank (compute_status (some 0) 10 none 0) ≤
      statusRank (compute_status (some 0) 10 none 86400000) :=
  C6_status_monotone 0 10 none 0 86400000 (by norm_num) (by norm_num)

/-- Modelled from the spec's formal sentence for the achievement level:
`return 1 + count(t in thresholds where value >= t), capped at the maximum
level`; used only to compare against `compute_level`. -/
def spec_compute_level (value : ℤ) (thresholds : List ℤ) : ℕ :=
  min (1 + thresholds.countP (fun t ↦ decide (t ≤ value))) ACHIEVEMENTS_LEVEL_NUMBER

lemma computeLevelFrom_of_all_le (value : ℤ) :
    ∀ (ts : List ℤ) (i : ℕ), (∀ t ∈ ts, t ≤ value) →
      computeLevelFrom value ts i = ACHIEVEMENTS_LEVEL_NUMBER
  | [], _, _ => rfl
  | t :: ts, i, h => by
    unfold computeLevelFrom
    rw [if_neg (not_lt.mpr (h t (List.mem_cons_self t ts)))]
    exact computeLevelFrom_of_all_le value ts (i + 1)
      (fun x hx ↦ h x (List.mem_cons_of_mem t hx))

lemma computeLevelFrom_of_exists (value : ℤ) :
    ∀ (ts : List ℤ) (i : ℕ), List.Sorted (· ≤ ·) ts → (∃ t ∈ ts, value < t) →
      computeLevelFrom value ts i = 1 + i + ts.countP (fun t ↦ decide (t ≤ value))
  | [], _, _, h => absurd h (by simp)
  | t :: ts, i, hs, h => by
    unfold computeLevelFrom
    by_cases hv : value < t
    · rw [if_pos hv]
      have hzero : (t :: ts).countP (fun x ↦ decide (x ≤ value)) = 0 := by
        rw [List.countP_eq_zero]
        intro a ha
        simp only [decide_eq_true_eq]
        rcases List.mem_cons.mp ha with rfl | hmem
        · exact not_le.mpr hv
        · exact not_le.mpr
            (lt_of_lt_of_le hv ((List.sorted_cons.mp hs).1 a hmem))
      rw [hzero]
      omega
    · rw [if_neg hv]
      have hex : ∃ x ∈ ts, value < x := by
        rcases h with ⟨x, hx, hvx⟩
        rcases List.mem_cons.mp hx with rfl | hmem
        · exact absurd hvx hv
        · exact ⟨x, hmem, hvx⟩
      rw [computeLevelFrom_of_exists value ts (i + 1) (List.sorted_cons.mp hs).2 hex]
      simp [List.countP_cons, not_lt.mp hv]
      omega

lemma compute_level_mono (thr : List ℤ) (hs : List.Sorted (· ≤ ·) thr)
    (hlen : thr.length ≤ 9) (v1 v2 : ℤ) (h : v1 ≤ v2) :
    compute_level v1 thr ≤ compute_level v2 thr := by
  by_cases h1 : ∀ t ∈ thr, t ≤ v1
  · rw [compute_level, computeLevelFrom_of_all_le _ _ _ h1,
      compute_level, computeLevelFrom_of_all_le _ _ _ (fun t ht ↦ (h1 t ht).trans h)]
  · push_neg at h1
    have hex1 : ∃ t ∈ thr, v1 < t := by
      rcases h1 with ⟨t, ht, hlt⟩
      exact ⟨t, ht, hlt⟩
    rw [compute_level, computeLevelFrom_of_exists v1 thr 0 hs hex1]
    have hc1 := List.countP_le_length (p := fun t ↦ decide (t ≤ v1)) (l := thr)
    by_cases h2 : ∀ t ∈ thr, t ≤ v2
    · rw [compute_level, computeLevelFrom_of_all_le _ _ _ h2]
      unfold ACHIEVEMENTS_LEVEL_NUMBER
      omega
    · push_neg at h2
      have hex2 : ∃ t ∈ thr, v2 < t := by
        rcases h2 with ⟨t, ht, hlt⟩
        exact ⟨t, ht, hlt⟩
      rw [compute_level, computeLevelFrom_of_exists v2 thr 0 hs hex2]
      have hcp : thr.countP (fun t ↦ decide (t ≤ v1)) ≤
          thr.countP (fun t ↦ decide (t ≤ v2)) := by
        apply List.countP_mono_left
        intro a _ ha
        simp only [decide_eq_true_eq] at ha ⊢
        exact ha.trans h
      omega

/-- C7 counterexample: the claimed closed form `1 + count(value ≥ t)` capped at
10 gives 4 at `value = 5`, `thresholds = [1,3,5]`, while `compute_level` jumps
to 10; moreover `compute_level` is not monotone on the ascending 12-threshold
list, dropping from 12 at value 11 to 10 at value 12. -/
theorem C7_compute_level_counterexample :
    compute_level 5 [1, 3, 5] = 10 ∧
    spec_compute_level 5 [1, 3, 5] = 4 ∧
    compute_level 11 [1, 2, 3, 4, 5, 6, 7, 8, 9, 10, 11, 12] = 12 ∧
    compute_level 12 [1, 2, 3, 4, 5, 6, 7, 8, 9, 10, 11, 12] = 10 := by
  refine ⟨by decide, by decide, by decide, by decide⟩

/-- C7 (amended): for an ascending list of thresholds, `compute_level` returns
`1 + count(t with value ≥ t)` (uncapped) while some threshold still exceeds
`value`, and jumps to the fixed maximum level 10 once `value` meets or exceeds
every threshold; it is monotone non-decreasing in `value` provided the list has
at most 9 thresholds (fewer than the maximum level). For `[1,3,5]` this gives
levels 1, 2, 2, 3 and then 10. -/
theorem C7_compute_level_amended (value : ℤ) (thr : List ℤ)
    (hs : List.Sorted (· ≤ ·) thr) :
    ((∃ t ∈ thr, value < t) →
      compute_level value thr = 1 + thr.countP (fun t ↦ decide (t ≤ value))) ∧
    ((∀ t ∈ thr, t ≤ value) →
      compute_level value thr = ACHIEVEMENTS_LEVEL_NUMBER) ∧
    (thr.length ≤ 9 → ∀ v2 : ℤ, value ≤ v2 →
      compute_level value thr ≤ compute_level v2 thr) := by
  refine ⟨?_, ?_, ?_⟩
  · intro hex
    rw [compute_level, computeLevelFrom_of_exists value thr 0 hs hex]
  · intro hall
    rw [compute_level, computeLevelFrom_of_all_le value thr 0 hall]
  · intro hlen v2 hv
    exact compute_level_mono thr hs hlen value v2 hv

/-- C7 witness: instantiation at `value = 1`, `thresholds = [1,3,5]`:
level 2 via the closed form, and monotone up to `value = 5`. -/
theorem C7_compute_level_amended_witness :
    compute_level 1 [1, 3, 5] = 1 + List.countP (fun t ↦ decide (t ≤ 1)) [1, 3, 5] ∧
    compute_level 1 [1, 3, 5] ≤ compute_level 5 [1, 3, 5] :=
  ⟨(C7_compute_level_amended 1 [1, 3, 5] (by decide)).1 ⟨3, by decide, by decide⟩,
   (C7_compute_level_amended 1 [1, 3, 5] (by decide)).2.2 (by decide) 5 (by decide)⟩

/-- The parameter list of the Python definition
`def compute_status(last_watered, watering_frequency_days, previous_last_watered=None)`
in `plant_health.py`; the body then reads `now = datetime.now(timezone.utc)`
from the wall clock instead of taking it as a parameter. -/
def compute_status_params : List String :=
  ["last_watered", "watering_frequency_days", "previous_last_watered"]

/-- C8 counterexample: `now` is not among the parameters of `compute_status`;
the Python function reads the clock from the environment rather than having
`now` injected as an input. -/
theorem C8_now_not_injected_counterexample : "now" ∉ compute_status_params := by
  decide

/-- C8 (amended): the classifier's result is fully determined by the tuple
`(last_watered, watering_frequency_days, previous_last_watered, now)` — where
`now` is the wall-clock reading taken inside the function body, not a
parameter — so two invocations with identical stored inputs evaluated at equal
clock readings produce the identical status. -/
theorem C8_deterministic (l : Option ℤ) (f : ℚ) (p : Option ℤ) (t1 t2 : ℚ)
    (h : t1 = t2) :
    compute_status l f p t1 = compute_status l f p t2 := by
  rw [h]

/-- C8 witness: two evaluations at the same clock reading agree. -/
theorem C8_deterministic_witness :
    compute_status (some 0) 10 (some 0) 86400000 =
      compute_status (some 0) 10 (some 0) 86400000 :=
  C8_deterministic (some 0) 10 (some 0) 86400000 86400000 rfl

/-- Division that signals rather than defaulting: `none` models a Python
`ZeroDivisionError`. -/
def checked_div (a b : ℚ) : Option ℚ :=
  if b = 0 then none else some (a / b)

/-- Helper `_dt` with every division checked. -/
def dtSecondsChecked (x : ℚ) : Option ℚ := checked_div x 1000

/-- Helper `_days` with every division checked. -/
def daysBetweenChecked (a b : ℚ) : Option ℚ := checked_div (b - a) 86400

/-- Helper `_relative_percentage` with its division checked; the `y == x` guard of
the source returns 0 before any division happens. -/
def relative_percentageChecked (x y z : ℚ) : Option ℚ :=
  if y = x then some 0
  else checked_div (max x (min y z) - x) (y - x)

/-- Variant of `compute_status` with every division of the Python body checked: a `none`
anywhere models an uncaught `ZeroDivisionError`. -/
def compute_statusChecked (last_watered : Option ℤ) (watering_frequency_days : ℚ)
    (previous_last_watered : Option ℤ) (now : ℚ) : Option PlantHealthStatus :=
  match last_watered with
  | none => some UNKNOWN
  | some last =>
    if watering_frequency_days ≤ 0 then some UNKNOWN
    else do
      let lastS ← dtSecondsChecked (last : ℚ)
      let nowS ← dtSecondsChecked now
      let days_since ← daysBetweenChecked lastS nowS
      let dq ← checked_div days_since watering_frequency_days
      let dryness := dq * 100
      let starting ← match previous_last_watered with
        | none => some (0 : ℚ)
        | some prev => do
          let prevS ← dtSecondsChecked (prev : ℚ)
          let days_between ← daysBetweenChecked prevS lastS
          let iq ← checked_div days_between watering_frequency_days
          let ipct := iq * 100
          if ipct < SEVERELY_OVERWATERED_MAX_THRESHOLD then some (1 : ℚ)
          else if ipct < OVERWATERED_MAX_THRESHOLD then do
            let r ← relative_percentageChecked SEVERELY_OVERWATERED_MAX_THRESHOLD
              OVERWATERED_MAX_THRESHOLD ipct
            some (1 - r)
          else some (0 : ℚ)
      let dd ← checked_div dryness OVERWATER_STATE_RECOVERY_END_THRESHOLD
      let decay := max 0 (min 1 (1 - dd))
      let eff := starting * decay
      if 0 < eff then
        if OVERWATERING_SEVERITY_LEVEL_THRESHOLD < eff then some SEVERELY_OVERWATERED
        else some OVERWATERED
      else
        if dryness ≤ HEALTHY_MAX_THRESHOLD then some HEALTHY
        else if dryness ≤ SLIGHTLY_DRY_MAX_THRESHOLD then some SLIGHTLY_DRY
        else if dryness ≤ NEEDS_WATER_MAX_THRESHOLD then some NEEDS_WATER
        else some SEVERELY_DRY

lemma checked_div_eq (a b : ℚ) (hb : b ≠ 0) : checked_div a b = some (a / b) :=
  if_neg hb

lemma dtSecondsChecked_eq (x : ℚ) : dtSecondsChecked x = some (dtSeconds x) := by
  unfold dtSecondsChecked dtSeconds
  exact checked_div_eq x 1000 (by norm_num)

lemma daysBetweenChecked_eq (a b : ℚ) :
    daysBetweenChecked a b = some (daysBetween a b) := by
  unfold daysBetweenChecked daysBetween
  exact checked_div_eq _ 86400 (by norm_num)

lemma relative_percentageChecked_eq (x y z : ℚ) :
    relative_percentageChecked x y z = some (relative_percentage x y z) := by
  unfold relative_percentageChecked relative_percentage
  by_cases h : y = x
  · rw [if_pos h, if_pos h]
  · rw [if_neg h, if_neg h]
    exact checked_div_eq _ _ (sub_ne_zero.mpr h)

/-- C9: for every input, `compute_status` returns a value (the variant of the
body in which every division raises on a zero divisor never raises and agrees
with `compute_status`); the interpolation helper returns 0 when its bounds
coincide instead of dividing by zero; and the result is always one of the
seven `PlantHealthStatus` variants. -/
theorem C9_total_no_division_by_zero :
    (∀ (l : Option ℤ) (f : ℚ) (p : Option ℤ) (t : ℚ),
      compute_statusChecked l f p t = some (compute_status l f p t)) ∧
    (∀ x z : ℚ, relative_percentage x x z = 0) ∧
    (∀ (l : Option ℤ) (f : ℚ) (p : Option ℤ) (t : ℚ),
      compute_status l f p t ∈ [SEVERELY_OVERWATERED, OVERWATERED, HEALTHY,
        SLIGHTLY_DRY, NEEDS_WATER, SEVERELY_DRY, UNKNOWN]) := by
  refine ⟨?_, ?_, ?_⟩
  · intro l f p t
    cases l with
    | none => rfl
    | some last =>
      by_cases hf : f ≤ 0
      · simp only [compute_statusChecked, compute_status, if_pos hf]
      · have hfne : f ≠ 0 := fun hc ↦ hf (le_of_eq hc)
        simp only [compute_statusChecked, compute_status, if_neg hf,
          dtSecondsChecked_eq, daysBetweenChecked_eq, relative_percentageChecked_eq,
          checked_div_eq _ f hfne,
          checked_div_eq _ OVERWATER_STATE_RECOVERY_END_THRESHOLD
            (show OVERWATER_STATE_RECOVERY_END_THRESHOLD ≠ 0 by
              unfold OVERWATER_STATE_RECOVERY_END_THRESHOLD; norm_num),
          Option.bind_some, Option.some_bind]
        cases p with
        | none =>
          simp only [bind, Option.bind_eq_bind, Option.some_bind,
            effective_overwater_severity, starting_overwater_severity,
            overwater_decay, dryness_pct, dryness_ladder]
          split_ifs <;> rfl
        | some prev =>
          simp only [bind, Option.bind_eq_bind, Option.some_bind, dtSecondsChecked_eq,
            daysBetweenChecked_eq, checked_div_eq _ f hfne, relative_percentageChecked_eq,
            effective_overwater_severity, starting_overwater_severity,
            overwater_decay, dryness_pct, dryness_ladder, interval_pct]
          split_ifs <;> rfl
  · intro x z
    unfold relative_percentage
    rw [if_pos rfl]
  · intro l f p t
    cases h : compute_status l f p t <;> simp
